import Mathlib

/-!
Verification of the `cli` package (kreklow.us/go/cli): a shallow embedding
of the graceful-shutdown coordinator (`ExitHandler`, src/exit.go) and the
terminal writer (`Cmd` print family, src/write.go), with theorems settling
the specification claims.

Modelling conventions:
* Go `error` values are `Option String` (`none` is Go's `nil` error).
* Go panics are the `.error` branch of `Except GoPanic _`.
* Channels are modelled by their observable one-shot state: whether the
  exit channel has been allocated (`chanInit`, i.e. `e.ec != nil`) and
  whether it has been closed (`chanClosed`).
* Goroutines spawned by the coordinator are tracked by flags:
  `timerRunning` (the `timeoutWait` goroutine spawned by `Exit` when the
  timeout is positive) and `listenerRunning` (the signal listener spawned
  once by `Watch`).  `listenersStarted` is a ghost counter incremented
  each time the listener goroutine is spawned.
* Calls are modelled at operation-level atomicity, matching the lock /
  `sync.Once` discipline of the source.
-/

/-- A Go runtime panic relevant to this package. -/
inductive GoPanic where
  /-- `close` of a nil channel. -/
  | closeOfNilChannel : GoPanic
  /-- `sync: negative WaitGroup counter`. -/
  | negativeWaitGroup : GoPanic
  /-- `panic(err)` raised in `Cmd.clearLiveLines` on a failed write. -/
  | writeError : String → GoPanic
deriving DecidableEq, Repr

/-- State of an `ExitHandler` (src/exit.go lines 54-72).  The wait-group
counter, the exit channel, the signal channel and the two `sync.Once`
guards are represented by their observable state. -/
structure ExitHandler where
  /-- `timeout` field, nanoseconds as `int64`. -/
  timeout : Int := 0
  /-- The `sync.WaitGroup` counter. -/
  counter : Int := 0
  /-- Whether `C`/`ec` have been allocated (`e.ec != nil`). -/
  chanInit : Bool := false
  /-- Whether the exit channel has been closed. -/
  chanClosed : Bool := false
  /-- Whether `sc` has been allocated (`e.sc != nil`). -/
  scInit : Bool := false
  /-- Whether `exitOnce.Do` has consumed its one shot. -/
  exitOnceDone : Bool := false
  /-- Whether `watchOnce.Do` has consumed its one shot. -/
  watchOnceDone : Bool := false
  /-- Whether the `timeoutWait` goroutine is running. -/
  timerRunning : Bool := false
  /-- Whether the signal-listener goroutine spawned by `Watch` is running. -/
  listenerRunning : Bool := false
  /-- Ghost count of listener goroutines ever spawned. -/
  listenersStarted : Nat := 0
  /-- The set of OS signals currently forwarded to `sc` (signal numbers). -/
  watched : List Nat := []
  /-- `err` field: first error passed to `Exit`. -/
  err : Option String := none
deriving DecidableEq, Repr

/-- The zero value `new(cli.ExitHandler)`: every field at its Go zero. -/
def ExitHandler.zero : ExitHandler := {}

/-- `SetTimeout` (src/exit.go lines 76-78): stores the duration. -/
def ExitHandler.SetTimeout (e : ExitHandler) (t : Int) : ExitHandler :=
  { e with timeout := t }

/-- `Exit` (src/exit.go lines 84-96): under `exitOnce`, store the error,
close the exit channel (a nil channel panics), and spawn `timeoutWait`
when the timeout is positive.  Calls after the first are no-ops. -/
def ExitHandler.Exit (e : ExitHandler) (err : Option String) :
    Except GoPanic ExitHandler :=
  if e.exitOnceDone then .ok e
  else if e.chanInit then
    .ok { e with exitOnceDone := true, err := err, chanClosed := true,
                 timerRunning := e.timeout > 0 }
  else .error .closeOfNilChannel

/-- `Add` (src/exit.go lines 119-127): lazily allocate the exit channel,
then `wg.Add(n)`, which panics when the counter would go negative. -/
def ExitHandler.Add (e : ExitHandler) (n : Int) : Except GoPanic ExitHandler :=
  if e.counter + n < 0 then .error .negativeWaitGroup
  else .ok { e with chanInit := true, counter := e.counter + n }

/-- `Done` (src/exit.go lines 130-132): `e.wg.Done()`, which in the
standard library is `wg.Add(-1)`, panicking when the counter would go
negative.  Unlike `ExitHandler.Add` it does not allocate the exit
channel. -/
def ExitHandler.Done (e : ExitHandler) : Except GoPanic ExitHandler :=
  if e.counter + (-1) < 0 then .error .negativeWaitGroup
  else .ok { e with counter := e.counter + (-1) }

/-- `Wait` (src/exit.go lines 136-140): blocks until the counter is zero,
then returns `e.err`.  `some r` is a return with value `r`; `none` means
the call blocks (the counter is nonzero). -/
def ExitHandler.Wait (e : ExitHandler) : Option (Option String) :=
  if e.counter = 0 then some e.err else none

/-- `Watch` (src/exit.go lines 146-176): allocate `sc` if needed,
`signal.Stop` clears the forwarded set, an empty argument list returns,
otherwise `signal.Notify` installs the new set and `watchOnce` spawns the
listener goroutine exactly once (allocating the exit channel if needed). -/
def ExitHandler.Watch (e : ExitHandler) (signals : List Nat) : ExitHandler :=
  let e1 := { e with scInit := true, watched := [] }
  if signals.isEmpty then e1
  else
    let e2 := { e1 with watched := signals }
    if e2.watchOnceDone then e2
    else { e2 with watchOnceDone := true, chanInit := true,
                   listenerRunning := true,
                   listenersStarted := e2.listenersStarted + 1 }

/-- The listener goroutine's `case <-e.C: return` branch (src/exit.go
lines 169-170): once the exit channel is closed the listener returns
without calling `Exit`. -/
def ExitHandler.listenerSeesClosed (e : ExitHandler) : ExitHandler :=
  if e.listenerRunning && e.chanClosed then { e with listenerRunning := false }
  else e

/-- `int(syscall.ETIME)` on Linux, the status passed to `os.Exit` by
`timeoutWait` (src/exit.go line 111). -/
def etime : Nat := 62

/-- Effect of an OS signal arriving at the process: either `timeoutWait`
force-terminates the process (`forced status`), or execution continues in
a possibly updated state. -/
inductive SigEffect where
  | forced : Nat → SigEffect
  | running : ExitHandler → SigEffect
deriving DecidableEq, Repr

/-- A watched OS signal arriving on `sc`.  `signal.Notify` forwards only
signals in the watched set.  Before the exit channel closes the listener
goroutine (src/exit.go lines 166-174) receives it and calls `Exit(nil)`,
then returns.  Once the channel is closed the listener's select takes the
closed-channel branch and returns, so the only receiver left on `sc` is
the `timeoutWait` goroutine (src/exit.go lines 99-112), which exists only
when `Exit` saw a positive timeout; it prints a diagnostic and calls
`os.Exit(int(syscall.ETIME))`.  With no receiver the signal sits in the
buffered channel with no effect. -/
def ExitHandler.signalArrives (e : ExitHandler) (sig : Nat) :
    Except GoPanic SigEffect :=
  if e.watched.contains sig then
    if e.listenerRunning && !e.chanClosed then
      (ExitHandler.Exit { e with listenerRunning := false } none).map .running
    else if e.timerRunning then .ok (.forced etime)
    else .ok (.running e)
  else .ok (.running e)

/-- A sequence of `Exit` calls, applied left to right. -/
def ExitHandler.applyExits (e : ExitHandler) :
    List (Option String) → Except GoPanic ExitHandler
  | [] => .ok e
  | x :: xs =>
    match e.Exit x with
    | .ok e' => e'.applyExits xs
    | .error p => .error p

/-- An `Add`/`Done` call. -/
inductive WgOp where
  | add : Int → WgOp
  | done : WgOp
deriving DecidableEq, Repr

/-- The counter delta of a wait-group call. -/
def WgOp.delta : WgOp → Int
  | .add n => n
  | .done => -1

/-- A sequence of `Add`/`Done` calls, applied left to right. -/
def ExitHandler.applyWgOps (e : ExitHandler) :
    List WgOp → Except GoPanic ExitHandler
  | [] => .ok e
  | op :: ops =>
    match (match op with | .add n => e.Add n | .done => e.Done) with
    | .ok e' => e'.applyWgOps ops
    | .error p => .error p

/-- Whether every partial sum of the deltas stays non-negative when
started from counter `c`. -/
def deltasOk : Int → List WgOp → Bool
  | _, [] => true
  | c, op :: ops =>
    if c + op.delta < 0 then false else deltasOk (c + op.delta) ops

/-- A sequence of `Watch` calls, applied left to right. -/
def ExitHandler.applyWatches (e : ExitHandler) :
    List (List Nat) → ExitHandler
  | [] => e
  | l :: ls => (e.Watch l).applyWatches ls

/-!  Theorems about the shutdown coordinator. -/

theorem ExitHandler.exit_fixed (e : ExitHandler) (x : Option String)
    (h : e.exitOnceDone = true) : e.Exit x = .ok e := by
  simp [ExitHandler.Exit, h]

theorem ExitHandler.applyExits_fixed (e : ExitHandler)
    (h : e.exitOnceDone = true) :
    ∀ xs : List (Option String), e.applyExits xs = .ok e := by
  intro xs
  induction xs with
  | nil => rfl
  | cons x xs ih =>
      simp [ExitHandler.applyExits, ExitHandler.exit_fixed e x h, ih]

/-- C1: Exit is idempotent with first-caller-wins error semantics: the
first `Exit` closes the channel and stores its error; every later call is
a no-op whose argument is discarded (no double-close panic), and `Wait`
returns exactly the first-stored error once the counter reaches zero
(`none` when the first `Exit` carried `nil`, or when `Exit` was never
called and the stored error is still its zero value). -/
theorem exit_first_caller_wins (e : ExitHandler) (x : Option String)
    (xs : List (Option String))
    (h1 : e.exitOnceDone = false) (h2 : e.chanInit = true) :
    ∃ e1, e.Exit x = .ok e1 ∧ e1.err = x ∧ e1.chanClosed = true ∧
      e1.applyExits xs = .ok e1 ∧
      (e1.counter = 0 → e1.Wait = some x) ∧
      (e.counter = 0 → e.err = none → e.Wait = some none) := by
  have hE : e.Exit x = .ok { e with
                             exitOnceDone := true, err := x,
                             chanClosed := true,
                             timerRunning := decide (e.timeout > 0) } := by
    simp [ExitHandler.Exit, h1, h2]
  refine ⟨_, hE, rfl, rfl, ?_, ?_, ?_⟩
  · exact ExitHandler.applyExits_fixed _ rfl xs
  · intro hc; simp [ExitHandler.Wait, show e.counter = 0 from hc]
  · intro hc he; simp [ExitHandler.Wait, hc, he]

theorem exit_first_caller_wins_witness :
    ∃ e1, ExitHandler.Exit ⟨0, 1, true, false, false, false, false, false,
        false, 0, [], none⟩ (some "boom") = .ok e1 ∧
      e1.err = some "boom" ∧ e1.chanClosed = true ∧
      e1.applyExits [none, some "late"] = .ok e1 ∧
      (e1.counter = 0 → e1.Wait = some (some "boom")) ∧
      ((⟨0, 1, true, false, false, false, false, false, false, 0, [],
        none⟩ : ExitHandler).counter = 0 →
       (⟨0, 1, true, false, false, false, false, false, false, 0, [],
        none⟩ : ExitHandler).err = none →
       (⟨0, 1, true, false, false, false, false, false, false, 0, [],
        none⟩ : ExitHandler).Wait = some none) :=
  exit_first_caller_wins
    ⟨0, 1, true, false, false, false, false, false, false, 0, [], none⟩
    (some "boom") [none, some "late"] rfl rfl

/-- C4: a wait-group call whose delta would make the counter negative is
a panic (`sync: negative WaitGroup counter`), never a silent no-op or a
wraparound; every sequence of `Add`/`Done` calls whose running sum stays
non-negative succeeds, ending with the counter at the net sum. -/
theorem add_done_negative_fatal (e : ExitHandler) (ops : List WgOp) :
    (deltasOk e.counter ops = true →
      ∃ e', e.applyWgOps ops = .ok e' ∧
        e'.counter = e.counter + (ops.map WgOp.delta).sum) ∧
    (deltasOk e.counter ops = false →
      e.applyWgOps ops = .error .negativeWaitGroup) := by
  induction ops generalizing e with
  | nil =>
      exact ⟨fun _ => ⟨e, rfl, by simp⟩, fun h => by simp [deltasOk] at h⟩
  | cons op ops ih =>
      cases op with
      | add n =>
          by_cases h : e.counter + n < 0
          · refine ⟨fun hok => ?_, fun _ => ?_⟩
            · simp [deltasOk, WgOp.delta, h] at hok
            · simp [ExitHandler.applyWgOps, ExitHandler.Add, h]
          · have h1 := ih { e with chanInit := true, counter := e.counter + n }
            refine ⟨fun hok => ?_, fun hbad => ?_⟩
            · simp only [deltasOk, WgOp.delta, h, if_neg] at hok
              obtain ⟨e', he', hc⟩ := h1.1 hok
              refine ⟨e', ?_, ?_⟩
              · simp [ExitHandler.applyWgOps, ExitHandler.Add, h, he']
              · simp only [List.map_cons, List.sum_cons, WgOp.delta]
                have hc' : e'.counter = e.counter + n +
                    (ops.map WgOp.delta).sum := hc
                omega
            · simp only [deltasOk, WgOp.delta, h, if_neg] at hbad
              have h2 := h1.2 hbad
              simp [ExitHandler.applyWgOps, ExitHandler.Add, h, h2]
      | done =>
          by_cases h : e.counter + (-1) < 0
          · refine ⟨fun hok => ?_, fun _ => ?_⟩
            · simp [deltasOk, WgOp.delta, h] at hok
            · simp [ExitHandler.applyWgOps, ExitHandler.Done, h]
          · have h1 := ih { e with counter := e.counter + (-1) }
            refine ⟨fun hok => ?_, fun hbad => ?_⟩
            · simp only [deltasOk, WgOp.delta, h, if_neg] at hok
              obtain ⟨e', he', hc⟩ := h1.1 hok
              refine ⟨e', ?_, ?_⟩
              · simp [ExitHandler.applyWgOps, ExitHandler.Done, h, he']
              · simp only [List.map_cons, List.sum_cons, WgOp.delta]
                have hc' : e'.counter = e.counter + (-1) +
                    (ops.map WgOp.delta).sum := hc
                omega
            · simp only [deltasOk, WgOp.delta, h, if_neg] at hbad
              have h2 := h1.2 hbad
              simp [ExitHandler.applyWgOps, ExitHandler.Done, h, h2]

theorem add_done_negative_fatal_witness :
    (∃ e', ExitHandler.applyWgOps ExitHandler.zero
        [WgOp.add 2, WgOp.done, WgOp.done] = .ok e' ∧
      e'.counter = ExitHandler.zero.counter +
        (([WgOp.add 2, WgOp.done, WgOp.done].map WgOp.delta)).sum) ∧
    ExitHandler.applyWgOps ExitHandler.zero [WgOp.add 1, WgOp.done, WgOp.done]
      = .error .negativeWaitGroup :=
  ⟨(add_done_negative_fatal ExitHandler.zero
      [WgOp.add 2, WgOp.done, WgOp.done]).1 (by decide),
   (add_done_negative_fatal ExitHandler.zero
      [WgOp.add 1, WgOp.done, WgOp.done]).2 (by decide)⟩

theorem ExitHandler.watch_listeners_step (e : ExitHandler) (l : List Nat)
    (h : e.listenersStarted ≤ if e.watchOnceDone then 1 else 0) :
    (e.Watch l).listenersStarted ≤
      if (e.Watch l).watchOnceDone then 1 else 0 := by
  unfold ExitHandler.Watch
  by_cases hl : l.isEmpty <;> by_cases hw : e.watchOnceDone <;>
    simp [hl, hw] at h ⊢ <;> omega

theorem ExitHandler.applyWatches_listeners (e : ExitHandler)
    (ls : List (List Nat))
    (h : e.listenersStarted ≤ if e.watchOnceDone then 1 else 0) :
    (e.applyWatches ls).listenersStarted ≤
      if (e.applyWatches ls).watchOnceDone then 1 else 0 := by
  induction ls generalizing e with
  | nil => exact h
  | cons l ls ih =>
      exact ih (e.Watch l) (ExitHandler.watch_listeners_step e l h)

theorem ExitHandler.applyWatches_last (e : ExitHandler)
    (ls : List (List Nat)) (l : List Nat) :
    (e.applyWatches (ls ++ [l])).watched = if l.isEmpty then [] else l := by
  induction ls generalizing e with
  | nil =>
      by_cases hl : l.isEmpty
      · simp [ExitHandler.applyWatches, ExitHandler.Watch, hl]
      · by_cases hw : e.watchOnceDone <;>
          simp [ExitHandler.applyWatches, ExitHandler.Watch, hl, hw]
  | cons l' ls ih =>
      simpa [ExitHandler.applyWatches] using ih (e.Watch l')

/-- C5: over every sequence of `Watch` calls on one handler, at most one
listener goroutine is ever started (the ghost spawn count never exceeds
one); each call replaces the watched signal set with its argument, the
empty set disabling OS-triggered shutdown; and a listener that observes
the exit channel closed returns, changing nothing but its own running
flag — in particular without invoking `Exit`. -/
theorem watch_single_listener (e : ExitHandler) (ls : List (List Nat))
    (l : List Nat) (h0 : e.watchOnceDone = false)
    (h1 : e.listenersStarted = 0) :
    (e.applyWatches ls).listenersStarted ≤ 1 ∧
    (e.applyWatches (ls ++ [l])).watched = (if l.isEmpty then [] else l) ∧
    (∀ s : ExitHandler, s.listenerRunning = true → s.chanClosed = true →
      s.listenerSeesClosed = { s with listenerRunning := false }) := by
  refine ⟨?_, ExitHandler.applyWatches_last e ls l, ?_⟩
  · have h2 := ExitHandler.applyWatches_listeners e ls (by simp [h0, h1])
    by_cases hw : (e.applyWatches ls).watchOnceDone <;> simp [hw] at h2 <;>
      omega
  · intro s hs hc
    simp [ExitHandler.listenerSeesClosed, hs, hc]

theorem watch_single_listener_witness :
    (ExitHandler.applyWatches ExitHandler.zero [[1, 2], [], [3]]).listenersStarted ≤ 1 ∧
    (ExitHandler.applyWatches ExitHandler.zero [[1, 2], [], [3]]).watched =
      (if ([3] : List Nat).isEmpty then [] else [3]) ∧
    (∀ s : ExitHandler, s.listenerRunning = true → s.chanClosed = true →
      s.listenerSeesClosed = { s with listenerRunning := false }) :=
  watch_single_listener ExitHandler.zero [[1, 2], []] [3] rfl rfl

/-- C10: on the zero-value `ExitHandler`, with neither `Add` nor `Watch`
ever called, the exit channel is nil and the first `Exit` call panics
(close of a nil channel) instead of performing the shutdown transition;
`Exit` is safe only once the channel has been allocated, which `Add` and
a non-empty `Watch` both do, while `SetTimeout` and `Done` never allocate
it. -/
theorem fresh_exit_panics (x y z : Option String) (n : Int)
    (sigs : List Nat) (hn : 0 ≤ n) (hs : sigs.isEmpty = false) :
    ExitHandler.zero.Exit x = .error .closeOfNilChannel ∧
    (∃ e', ExitHandler.zero.Add n = .ok e' ∧ ∃ e'', e'.Exit y = .ok e'') ∧
    (∃ e'', (ExitHandler.zero.Watch sigs).Exit z = .ok e'') ∧
    (∀ s : ExitHandler, s.chanInit = false → s.exitOnceDone = false →
      s.Exit x = .error .closeOfNilChannel) ∧
    (∀ s : ExitHandler, ∀ t : Int, (s.SetTimeout t).chanInit = s.chanInit) ∧
    (∀ s s' : ExitHandler, s.Done = .ok s' → s'.chanInit = s.chanInit) := by
  have hfresh : ∀ s : ExitHandler, s.chanInit = false →
      s.exitOnceDone = false → s.Exit x = .error .closeOfNilChannel := by
    intro s hc ho
    simp [ExitHandler.Exit, hc, ho]
  refine ⟨hfresh ExitHandler.zero rfl rfl, ?_, ?_, hfresh,
    fun s t => rfl, ?_⟩
  · have hok : ¬ ExitHandler.zero.counter + n < 0 := by
      simp [ExitHandler.zero]; omega
    have hA : ExitHandler.zero.Add n = .ok { ExitHandler.zero with
        chanInit := true, counter := ExitHandler.zero.counter + n } := by
      rw [ExitHandler.Add, if_neg hok]
    exact ⟨_, hA, _, rfl⟩
  · have hW : ExitHandler.zero.Watch sigs = { ExitHandler.zero with
        scInit := true, watched := sigs, watchOnceDone := true,
        chanInit := true, listenerRunning := true, listenersStarted := 1 } := by
      simp [ExitHandler.Watch, hs, ExitHandler.zero]
    rw [hW]
    exact ⟨_, rfl⟩
  · intro s s' hd
    simp only [ExitHandler.Done] at hd
    by_cases h : s.counter + (-1) < 0
    · simp [h] at hd
    · simp [h] at hd
      simp [← hd]

theorem fresh_exit_panics_witness :
    ExitHandler.zero.Exit (some "e1") = .error .closeOfNilChannel ∧
    (∃ e', ExitHandler.zero.Add 1 = .ok e' ∧
      ∃ e'', e'.Exit (some "e2") = .ok e'') ∧
    (∃ e'', (ExitHandler.zero.Watch [2, 15]).Exit none = .ok e'') ∧
    (∀ s : ExitHandler, s.chanInit = false → s.exitOnceDone = false →
      s.Exit (some "e1") = .error .closeOfNilChannel) ∧
    (∀ s : ExitHandler, ∀ t : Int, (s.SetTimeout t).chanInit = s.chanInit) ∧
    (∀ s s' : ExitHandler, s.Done = .ok s' → s'.chanInit = s.chanInit) :=
  fresh_exit_panics (some "e1") (some "e2") none 1 [2, 15] (by decide) rfl

/-- C2 amended: in the draining state (exit channel closed, tasks still
pending), a second watched OS signal forces process termination with
status `int(syscall.ETIME)` exactly when the configured timeout was
positive at the `Exit` call — only then does the `timeoutWait` goroutine
exist to receive the signal; with a zero or negative timeout the signal
has no receiver and the process keeps draining. -/
theorem second_signal_forces_exit (e : ExitHandler) (x : Option String)
    (sig : Nat) (h1 : e.exitOnceDone = false) (h2 : e.chanInit = true)
    (hw : sig ∈ e.watched) :
    ∃ e1, e.Exit x = .ok e1 ∧ e1.chanClosed = true ∧
      e1.signalArrives sig =
        (if e.timeout > 0 then .ok (.forced etime)
         else .ok (.running e1)) := by
  have hE : e.Exit x = .ok { e with
                             exitOnceDone := true, err := x,
                             chanClosed := true,
                             timerRunning := decide (e.timeout > 0) } := by
    simp [ExitHandler.Exit, h1, h2]
  refine ⟨_, hE, rfl, ?_⟩
  by_cases ht : e.timeout > 0 <;>
    simp [ExitHandler.signalArrives, hw, ht]

theorem second_signal_forces_exit_witness :
    ∃ e1, ExitHandler.Exit ⟨1, 1, true, false, true, false, true, false,
        false, 1, [15], none⟩ (some "stop") = .ok e1 ∧
      e1.chanClosed = true ∧
      e1.signalArrives 15 =
        (if (⟨1, 1, true, false, true, false, true, false, false, 1, [15],
              none⟩ : ExitHandler).timeout > 0 then .ok (.forced etime)
         else .ok (.running e1)) :=
  second_signal_forces_exit
    ⟨1, 1, true, false, true, false, true, false, false, 1, [15], none⟩
    (some "stop") 15 rfl rfl (by decide)

/-- Counterexample to C2 as stated: with the timeout at its zero value, a
handler reaches the draining state (channel closed, counter still 1)
after `Watch [1]`, `Add 1` and a first signal, yet a second watched
signal does not terminate the process — `signalArrives` keeps running
because no `timeoutWait` goroutine exists. -/
theorem second_signal_timeout_zero_counterexample :
    ExitHandler.zero.Watch [1] =
      ⟨0, 0, true, false, true, false, true, false, true, 1, [1], none⟩ ∧
    ExitHandler.Add
      ⟨0, 0, true, false, true, false, true, false, true, 1, [1], none⟩ 1 =
      .ok ⟨0, 1, true, false, true, false, true, false, true, 1, [1], none⟩ ∧
    ExitHandler.signalArrives
      ⟨0, 1, true, false, true, false, true, false, true, 1, [1], none⟩ 1 =
      .ok (.running
        ⟨0, 1, true, true, true, true, true, false, false, 1, [1], none⟩) ∧
    (⟨0, 1, true, true, true, true, true, false, false, 1, [1],
      none⟩ : ExitHandler).chanClosed = true ∧
    (⟨0, 1, true, true, true, true, true, false, false, 1, [1],
      none⟩ : ExitHandler).counter = 1 ∧
    ExitHandler.signalArrives
      ⟨0, 1, true, true, true, true, true, false, false, 1, [1], none⟩ 1 =
      .ok (.running
        ⟨0, 1, true, true, true, true, true, false, false, 1, [1], none⟩) :=
  ⟨rfl, rfl, rfl, rfl, rfl, rfl⟩

/-!  The terminal writer (`Cmd`, src/cmd.go and src/write.go).

`fmt.Fprint`, `fmt.Fprintf` and `fmt.Fprintln` are external; the print
operations below therefore take the already-formatted text as their
string argument and model the single `Write` call that carries it to the
destination.  An `io.Writer` destination is modelled by its response
function (`resp i s`: the `(n, err)` result of the `i`-th `Write` call,
0-based, carrying bytes `s`) together with the trace of chunks presented
to it. -/

/-- The `(n, err)` result of a `Write` call. -/
structure WriteResult where
  n : Nat
  err : Option String
deriving DecidableEq, Repr

/-- An `io.Writer` destination with its write trace. -/
structure GoWriter where
  resp : Nat → String → WriteResult
  written : List String

/-- One `Write` call on a destination. -/
def GoWriter.write (w : GoWriter) (s : String) : GoWriter × WriteResult :=
  ({ w with written := w.written ++ [s] }, w.resp w.written.length s)

/-- The print-related state of `Cmd` (src/cmd.go lines 38-53):
destinations, cached terminal-ness flags, and the live-line count.
`outLiveBuf` is a scratch formatting buffer and needs no state — it is
reset on each use. -/
structure Cmd where
  outWriter : GoWriter
  errWriter : GoWriter
  outIsTerm : Bool
  errIsTerm : Bool
  outLiveLines : Nat

/-- The escape sequence written once per pending live line
(src/write.go line 332): cursor up one line, then erase the line. -/
def clearcmd : String := "\x1b[1A\x1b[2K"

/-- `bytes.Count(b, []byte{'\x7b'\n'\x7d})` on UTF-8 text: the newline
byte never occurs inside a multi-byte sequence, so the byte count equals
the character count. -/
def countNewlines (s : String) : Nat := s.toList.count '\n'

/-- `SetOutputWriter` (src/write.go lines 200-209): replace the normal
destination and cache the `isatty` probe of the new destination (the
probe itself is external; its outcome is the `isTerm` argument). -/
def Cmd.SetOutputWriter (c : Cmd) (w : GoWriter) (isTerm : Bool) : Cmd :=
  { c with outWriter := w, outIsTerm := isTerm }

/-- `Print` (src/write.go lines 214-223): on a terminal destination reset
the live-line count, then `fmt.Fprint(c.outWriter, v...)`. -/
def Cmd.Print (c : Cmd) (s : String) : Cmd × WriteResult :=
  let c1 := if c.outIsTerm then { c with outLiveLines := 0 } else c
  let p := c1.outWriter.write s
  ({ c1 with outWriter := p.1 }, p.2)

/-- `Printf` (src/write.go lines 228-237): on a terminal destination
reset the live-line count, then `fmt.Fprintf(c.outWriter, f, v...)`. -/
def Cmd.Printf (c : Cmd) (s : String) : Cmd × WriteResult :=
  let c1 := if c.outIsTerm then { c with outLiveLines := 0 } else c
  let p := c1.outWriter.write s
  ({ c1 with outWriter := p.1 }, p.2)

/-- `Println` (src/write.go lines 264-273): on a terminal destination
reset the live-line count, then `fmt.Fprintln(c.outWriter, v...)`. -/
def Cmd.Println (c : Cmd) (s : String) : Cmd × WriteResult :=
  let c1 := if c.outIsTerm then { c with outLiveLines := 0 } else c
  let p := c1.outWriter.write s
  ({ c1 with outWriter := p.1 }, p.2)

/-- The loop of `clearLiveLines` (src/write.go lines 331-336): write the
clear sequence once per pending live line; a write error panics. -/
def clearLoop (w : GoWriter) : Nat → Except GoPanic GoWriter
  | 0 => .ok w
  | k + 1 =>
    let p := w.write clearcmd
    match p.2.err with
    | some m => .error (.writeError m)
    | none => clearLoop p.1 k

/-- `clearLiveLines` (src/write.go lines 330-339): run the clear loop,
then zero the live-line count. -/
def Cmd.clearLiveLines (c : Cmd) : Except GoPanic Cmd :=
  match clearLoop c.outWriter c.outLiveLines with
  | .error p => .error p
  | .ok w => .ok { c with outWriter := w, outLiveLines := 0 }

/-- `Lprintf` (src/write.go lines 244-259): on a non-terminal destination
exactly `fmt.Fprintf`; on a terminal, clear the previous live lines,
format into `outLiveBuf`, record the newline count of the formatted bytes
as the new live-line count, and write the bytes. -/
def Cmd.Lprintf (c : Cmd) (s : String) : Except GoPanic (Cmd × WriteResult) :=
  if !c.outIsTerm then
    let p := c.outWriter.write s
    .ok ({ c with outWriter := p.1 }, p.2)
  else
    match c.clearLiveLines with
    | .error p => .error p
    | .ok c1 =>
      let c2 := { c1 with outLiveLines := countNewlines s }
      let p := c2.outWriter.write s
      .ok ({ c2 with outWriter := p.1 }, p.2)

/-- `SetErrorWriter` (src/write.go lines 277-287): replace the diagnostic
destination and cache the `isatty` probe of the new destination. -/
def Cmd.SetErrorWriter (c : Cmd) (w : GoWriter) (isTerm : Bool) : Cmd :=
  { c with errWriter := w, errIsTerm := isTerm }

/-- `Eprint` (src/write.go lines 291-300): when the diagnostic
destination is a terminal, reset `outLiveLines`, then
`fmt.Fprint(c.errWriter, v...)`. -/
def Cmd.Eprint (c : Cmd) (s : String) : Cmd × WriteResult :=
  let c1 := if c.errIsTerm then { c with outLiveLines := 0 } else c
  let p := c1.errWriter.write s
  ({ c1 with errWriter := p.1 }, p.2)

/-- `Eprintf` (src/write.go lines 305-314): when the diagnostic
destination is a terminal, reset `outLiveLines`, then
`fmt.Fprintf(c.errWriter, f, v...)`. -/
def Cmd.Eprintf (c : Cmd) (s : String) : Cmd × WriteResult :=
  let c1 := if c.errIsTerm then { c with outLiveLines := 0 } else c
  let p := c1.errWriter.write s
  ({ c1 with errWriter := p.1 }, p.2)

/-- `Eprintln` (src/write.go lines 319-328): when the diagnostic
destination is a terminal, reset `outLiveLines`, then
`fmt.Fprintln(c.errWriter, v...)`. -/
def Cmd.Eprintln (c : Cmd) (s : String) : Cmd × WriteResult :=
  let c1 := if c.errIsTerm then { c with outLiveLines := 0 } else c
  let p := c1.errWriter.write s
  ({ c1 with errWriter := p.1 }, p.2)

/-- A destination that accepts every write in full. -/
def okWriter : GoWriter := ⟨fun _ s => ⟨s.length, none⟩, []⟩

/-- A destination that rejects every write with the given message. -/
def failWriter (m : String) : GoWriter := ⟨fun _ _ => ⟨0, some m⟩, []⟩

theorem clearLoop_ok (w : GoWriter) (n : Nat)
    (h : ∀ i, (w.resp i clearcmd).err = none) :
    clearLoop w n = .ok ⟨w.resp, w.written ++ List.replicate n clearcmd⟩ := by
  induction n generalizing w with
  | zero => simp [clearLoop]
  | succ k ih =>
      have step := ih ⟨w.resp, w.written ++ [clearcmd]⟩ h
      simp [clearLoop, GoWriter.write, h w.written.length, step,
        List.replicate_succ]

theorem Cmd.clearLiveLines_ok (c : Cmd)
    (h : ∀ i, (c.outWriter.resp i clearcmd).err = none) :
    c.clearLiveLines = .ok { c with
      outWriter := ⟨c.outWriter.resp,
        c.outWriter.written ++ List.replicate c.outLiveLines clearcmd⟩,
      outLiveLines := 0 } := by
  simp [Cmd.clearLiveLines, clearLoop_ok c.outWriter c.outLiveLines h]

/-- C3: when the normal destination is a terminal, `Lprintf` first
presents exactly `outLiveLines` copies of the byte sequence
`ESC[1A ESC[2K]` to the destination — the live-line count recorded by the
previous live call — then writes the newly formatted content, and records
the number of newline bytes of that content as the new live-line count. -/
theorem lprintf_terminal_clears (c : Cmd) (s : String)
    (h : c.outIsTerm = true)
    (hok : ∀ i, (c.outWriter.resp i clearcmd).err = none) :
    ∃ c' r, c.Lprintf s = .ok (c', r) ∧
      c'.outWriter.written =
        c.outWriter.written ++ List.replicate c.outLiveLines clearcmd ++ [s] ∧
      c'.outLiveLines = countNewlines s := by
  refine ⟨{ c with
            outWriter := ⟨c.outWriter.resp,
              (c.outWriter.written ++
                List.replicate c.outLiveLines clearcmd) ++ [s]⟩,
            outLiveLines := countNewlines s },
          c.outWriter.resp
            (c.outWriter.written ++
              List.replicate c.outLiveLines clearcmd).length s,
          ?_, rfl, rfl⟩
  simp [Cmd.Lprintf, h, Cmd.clearLiveLines_ok c hok, GoWriter.write]

theorem lprintf_terminal_clears_witness :
    ∃ c' r, Cmd.Lprintf ⟨⟨fun _ s => ⟨s.length, none⟩, ["p"]⟩, okWriter,
        true, false, 2⟩ "a\nb\n" = .ok (c', r) ∧
      c'.outWriter.written =
        (⟨⟨fun _ s => ⟨s.length, none⟩, ["p"]⟩, okWriter, true, false,
          2⟩ : Cmd).outWriter.written ++
        List.replicate (⟨⟨fun _ s => ⟨s.length, none⟩, ["p"]⟩, okWriter,
          true, false, 2⟩ : Cmd).outLiveLines clearcmd ++ ["a\nb\n"] ∧
      c'.outLiveLines = countNewlines "a\nb\n" :=
  lprintf_terminal_clears
    ⟨⟨fun _ s => ⟨s.length, none⟩, ["p"]⟩, okWriter, true, false, 2⟩
    "a\nb\n" rfl (fun _ => rfl)

/-- C6: when the normal destination is not a terminal, `Lprintf` is
extensionally `Printf`: identical state (bytes presented to the
destination included, with no escape sequence), identical `(n, err)`
return value, and no live-line update beyond what `Printf` does. -/
theorem lprintf_nonterminal_eq_printf (c : Cmd) (s : String)
    (h : c.outIsTerm = false) :
    c.Lprintf s = .ok (c.Printf s) := by
  simp [Cmd.Lprintf, Cmd.Printf, h]

theorem lprintf_nonterminal_eq_printf_witness :
    Cmd.Lprintf ⟨⟨fun _ s => ⟨s.length, none⟩, ["p"]⟩, okWriter, false,
        false, 2⟩ "x\n" =
      .ok (Cmd.Printf ⟨⟨fun _ s => ⟨s.length, none⟩, ["p"]⟩, okWriter,
        false, false, 2⟩ "x\n") :=
  lprintf_nonterminal_eq_printf
    ⟨⟨fun _ s => ⟨s.length, none⟩, ["p"]⟩, okWriter, false, false, 2⟩
    "x\n" rfl

/-- C7: on a terminal normal destination, each ordinary write resets the
live-line count to zero and presents only its formatted chunk to the
destination (no clear escape sequence); a following `Lprintf` therefore
emits zero clear sequences before rendering its content. -/
theorem ordinary_write_resets_live (c : Cmd) (s t : String)
    (h : c.outIsTerm = true) :
    (c.Print s).1.outLiveLines = 0 ∧
    (c.Printf s).1.outLiveLines = 0 ∧
    (c.Println s).1.outLiveLines = 0 ∧
    (c.Print s).1.outWriter.written = c.outWriter.written ++ [s] ∧
    (c.Printf s).1.outWriter.written = c.outWriter.written ++ [s] ∧
    (c.Println s).1.outWriter.written = c.outWriter.written ++ [s] ∧
    (∃ c' r, ((c.Printf s).1).Lprintf t = .ok (c', r) ∧
      c'.outWriter.written = c.outWriter.written ++ [s] ++ [t]) := by
  refine ⟨?_, ?_, ?_, ?_, ?_, ?_, ?_⟩ <;>
    simp [Cmd.Print, Cmd.Printf, Cmd.Println, Cmd.Lprintf,
      Cmd.clearLiveLines, clearLoop, GoWriter.write, h]

theorem ordinary_write_resets_live_witness :
    ((⟨okWriter, okWriter, true, false, 3⟩ : Cmd).Print "a").1.outLiveLines
        = 0 ∧
    ((⟨okWriter, okWriter, true, false, 3⟩ : Cmd).Printf "a").1.outLiveLines
        = 0 ∧
    ((⟨okWriter, okWriter, true, false, 3⟩ : Cmd).Println "a").1.outLiveLines
        = 0 ∧
    ((⟨okWriter, okWriter, true, false, 3⟩ : Cmd).Print "a").1.outWriter.written
        = (⟨okWriter, okWriter, true, false, 3⟩ : Cmd).outWriter.written ++ ["a"] ∧
    ((⟨okWriter, okWriter, true, false, 3⟩ : Cmd).Printf "a").1.outWriter.written
        = (⟨okWriter, okWriter, true, false, 3⟩ : Cmd).outWriter.written ++ ["a"] ∧
    ((⟨okWriter, okWriter, true, false, 3⟩ : Cmd).Println "a").1.outWriter.written
        = (⟨okWriter, okWriter, true, false, 3⟩ : Cmd).outWriter.written ++ ["a"] ∧
    (∃ c' r, (((⟨okWriter, okWriter, true, false, 3⟩ : Cmd).Printf "a").1).Lprintf "b\n"
        = .ok (c', r) ∧
      c'.outWriter.written =
        (⟨okWriter, okWriter, true, false, 3⟩ : Cmd).outWriter.written
          ++ ["a"] ++ ["b\n"]) :=
  ordinary_write_resets_live ⟨okWriter, okWriter, true, false, 3⟩ "a" "b\n" rfl

/-- Counterexample to C8 as stated: a diagnostic write does modify
normal-sink state — with the diagnostic destination a terminal and one
pending live line, `Eprint` resets the normal sink's live-line count from
1 to 0. -/
theorem eprint_resets_out_live_counterexample :
    ((⟨okWriter, okWriter, true, true, 1⟩ : Cmd).Eprint "x").1.outLiveLines
        = 0 ∧
    (⟨okWriter, okWriter, true, true, 1⟩ : Cmd).outLiveLines = 1 :=
  ⟨rfl, rfl⟩

/-- C8 amended: diagnostic-sink operations never touch the normal sink's
destination or terminal flag, and `SetErrorWriter` touches no normal-sink
state at all; the live-line count, however, is reset to zero by each
`Eprint`/`Eprintf`/`Eprintln` when the diagnostic destination is a
terminal, and left unchanged when it is not. -/
theorem eprint_frame (c : Cmd) (s : String) (w : GoWriter) (b : Bool) :
    (c.Eprint s).1.outWriter = c.outWriter ∧
    (c.Eprintf s).1.outWriter = c.outWriter ∧
    (c.Eprintln s).1.outWriter = c.outWriter ∧
    (c.Eprint s).1.outIsTerm = c.outIsTerm ∧
    (c.Eprintf s).1.outIsTerm = c.outIsTerm ∧
    (c.Eprintln s).1.outIsTerm = c.outIsTerm ∧
    (c.Eprint s).1.outLiveLines =
      (if c.errIsTerm then 0 else c.outLiveLines) ∧
    (c.Eprintf s).1.outLiveLines =
      (if c.errIsTerm then 0 else c.outLiveLines) ∧
    (c.Eprintln s).1.outLiveLines =
      (if c.errIsTerm then 0 else c.outLiveLines) ∧
    (c.SetErrorWriter w b).outWriter = c.outWriter ∧
    (c.SetErrorWriter w b).outIsTerm = c.outIsTerm ∧
    (c.SetErrorWriter w b).outLiveLines = c.outLiveLines := by
  by_cases h : c.errIsTerm <;>
    simp [Cmd.Eprint, Cmd.Eprintf, Cmd.Eprintln, Cmd.SetErrorWriter,
      GoWriter.write, h]

/-- Counterexample to C9 as stated: a destination failure during a
live-update write is not always fatal — on an interactive sink with no
pending live lines, the content write fails and `Lprintf` returns the
error as a normal result instead of panicking. -/
theorem lprintf_error_returned_counterexample :
    Cmd.Lprintf ⟨failWriter "file already closed", okWriter, true, false,
        0⟩ "x" =
      .ok (⟨⟨fun _ _ => ⟨0, some "file already closed"⟩, ["x"]⟩, okWriter,
            true, false, 0⟩,
           ⟨0, some "file already closed"⟩) := rfl

/-- C9 amended: during `Lprintf` on an interactive sink, a destination
failure while emitting the clear sequences is fatal — the operation
panics at the failing write; the final content write's result, error
included, is returned to the caller as a normal `(n, error)` result, just
as every ordinary write returns its destination's result. -/
theorem live_write_failure_semantics (c d : Cmd) (s m : String)
    (h : c.outIsTerm = true) (hn : 0 < c.outLiveLines)
    (hfail : (c.outWriter.resp c.outWriter.written.length clearcmd).err
      = some m)
    (hd : d.outIsTerm = true)
    (hdok : ∀ i, (d.outWriter.resp i clearcmd).err = none) :
    c.Lprintf s = .error (.writeError m) ∧
    (∃ c', d.Lprintf s = .ok (c',
      d.outWriter.resp (d.outWriter.written.length + d.outLiveLines) s)) ∧
    (c.Printf s).2 = c.outWriter.resp c.outWriter.written.length s := by
  refine ⟨?_, ?_, ?_⟩
  · obtain ⟨k, hk⟩ : ∃ k, c.outLiveLines = k + 1 :=
      ⟨c.outLiveLines - 1, by omega⟩
    simp [Cmd.Lprintf, h, Cmd.clearLiveLines, hk, clearLoop,
      GoWriter.write, hfail]
  · refine ⟨{ d with
              outWriter := ⟨d.outWriter.resp,
                (d.outWriter.written ++
                  List.replicate d.outLiveLines clearcmd) ++ [s]⟩,
              outLiveLines := countNewlines s }, ?_⟩
    simp [Cmd.Lprintf, hd, Cmd.clearLiveLines_ok d hdok, GoWriter.write]
  · simp [Cmd.Printf, GoWriter.write, h]

theorem live_write_failure_semantics_witness :
    Cmd.Lprintf ⟨failWriter "tty gone", okWriter, true, false, 2⟩ "x"
        = .error (.writeError "tty gone") ∧
    (∃ c', Cmd.Lprintf ⟨okWriter, okWriter, true, false, 2⟩ "x" = .ok (c',
      (⟨okWriter, okWriter, true, false, 2⟩ : Cmd).outWriter.resp
        ((⟨okWriter, okWriter, true, false, 2⟩ : Cmd).outWriter.written.length
          + (⟨okWriter, okWriter, true, false, 2⟩ : Cmd).outLiveLines) "x")) ∧
    (Cmd.Printf ⟨failWriter "tty gone", okWriter, true, false, 2⟩ "x").2 =
      (⟨failWriter "tty gone", okWriter, true, false,
        2⟩ : Cmd).outWriter.resp
        (⟨failWriter "tty gone", okWriter, true, false,
          2⟩ : Cmd).outWriter.written.length "x" :=
  live_write_failure_semantics
    ⟨failWriter "tty gone", okWriter, true, false, 2⟩
    ⟨okWriter, okWriter, true, false, 2⟩ "x" "tty gone"
    rfl (by decide) rfl rfl (fun _ => rfl)
